import Mathlib

/-!
Verification of the `aiohttp_data_handler` WebSocket dispatch/lifecycle core
(`fastapi_data_handler/websocket_handler.py`), shallowly embedded in Lean.

Python values, registries and messages are modelled explicitly; effectful
statements (logging, appending to the connection list, closing, invoking
hooks, sending) are modelled as events appended to a trace.  External
collaborators (the transport, the registered handlers, the `on_connect`
hook) are parameters of the embedded functions: their outcomes, including
raised exceptions, are inputs, so every control path of the Python source
is a value of the model.
-/

set_option autoImplicit false

namespace WsHandler

/-- Python values as `json.loads` produces them and as the handler core
inspects them: the command field of a message, handler return values
(whose truthiness the server loop tests), and payloads, including JSON
arrays and objects (which are unhashable in Python and make the
registry-membership test raise). -/
inductive Val where
  | vnone
  | vstr (s : String)
  | vint (n : Int)
  | vbool (b : Bool)
  | vlist (xs : List Val)
  | vdict (xs : List (String × Val))

mutual

/-- Python `repr()` of a value (how containers render their elements). -/
def Val.pyRepr : Val → String
  | .vnone => "None"
  | .vstr s => "\x27" ++ s ++ "\x27"
  | .vint n => toString n
  | .vbool b => if b then "True" else "False"
  | .vlist xs => "[" ++ pyReprList xs ++ "]"
  | .vdict xs => "\x7b" ++ pyReprDict xs ++ "\x7d"

/-- Comma-separated `repr()`s of a list's elements. -/
def pyReprList : List Val → String
  | [] => ""
  | [x] => Val.pyRepr x
  | x :: xs => Val.pyRepr x ++ ", " ++ pyReprList xs

/-- Comma-separated `repr()`s of a dict's entries. -/
def pyReprDict : List (String × Val) → String
  | [] => ""
  | [(k, x)] => "\x27" ++ k ++ "\x27: " ++ Val.pyRepr x
  | (k, x) :: xs => "\x27" ++ k ++ "\x27: " ++ Val.pyRepr x ++ ", " ++ pyReprDict xs

end

/-- Python `str()`, as an f-string renders a value (a string renders
bare; other values render as their `repr()`). -/
def Val.pyStr : Val → String
  | .vnone => "None"
  | .vstr s => s
  | .vint n => toString n
  | .vbool b => if b then "True" else "False"
  | .vlist xs => Val.pyRepr (.vlist xs)
  | .vdict xs => Val.pyRepr (.vdict xs)

/-- Python truthiness (`if ret:`). -/
def Val.truthy : Val → Bool
  | .vnone => false
  | .vstr s => s != ""
  | .vint n => n != 0
  | .vbool b => b
  | .vlist xs => !xs.isEmpty
  | .vdict xs => !xs.isEmpty

/-- Whether a value is hashable in Python: lists and dicts are not, and
using one as a dict-membership key raises `TypeError`. -/
def Val.hashable : Val → Bool
  | .vlist _ => false
  | .vdict _ => false
  | _ => true

mutual

/-- Decidable equality on `Val`, hand-written because the nesting under
`List` defeats the deriving handler. -/
def Val.decEq : (a b : Val) → Decidable (a = b)
  | .vnone, .vnone => isTrue rfl
  | .vstr s, .vstr t =>
      if h : s = t then isTrue (congrArg Val.vstr h)
      else isFalse fun hh => h (Val.vstr.inj hh)
  | .vint m, .vint n =>
      if h : m = n then isTrue (congrArg Val.vint h)
      else isFalse fun hh => h (Val.vint.inj hh)
  | .vbool x, .vbool y =>
      if h : x = y then isTrue (congrArg Val.vbool h)
      else isFalse fun hh => h (Val.vbool.inj hh)
  | .vlist xs, .vlist ys =>
      match Val.decEqList xs ys with
      | isTrue h => isTrue (congrArg Val.vlist h)
      | isFalse h => isFalse fun hh => h (Val.vlist.inj hh)
  | .vdict xs, .vdict ys =>
      match Val.decEqDict xs ys with
      | isTrue h => isTrue (congrArg Val.vdict h)
      | isFalse h => isFalse fun hh => h (Val.vdict.inj hh)
  | .vnone, .vstr _ => isFalse fun h => Val.noConfusion h
  | .vnone, .vint _ => isFalse fun h => Val.noConfusion h
  | .vnone, .vbool _ => isFalse fun h => Val.noConfusion h
  | .vnone, .vlist _ => isFalse fun h => Val.noConfusion h
  | .vnone, .vdict _ => isFalse fun h => Val.noConfusion h
  | .vstr _, .vnone => isFalse fun h => Val.noConfusion h
  | .vstr _, .vint _ => isFalse fun h => Val.noConfusion h
  | .vstr _, .vbool _ => isFalse fun h => Val.noConfusion h
  | .vstr _, .vlist _ => isFalse fun h => Val.noConfusion h
  | .vstr _, .vdict _ => isFalse fun h => Val.noConfusion h
  | .vint _, .vnone => isFalse fun h => Val.noConfusion h
  | .vint _, .vstr _ => isFalse fun h => Val.noConfusion h
  | .vint _, .vbool _ => isFalse fun h => Val.noConfusion h
  | .vint _, .vlist _ => isFalse fun h => Val.noConfusion h
  | .vint _, .vdict _ => isFalse fun h => Val.noConfusion h
  | .vbool _, .vnone => isFalse fun h => Val.noConfusion h
  | .vbool _, .vstr _ => isFalse fun h => Val.noConfusion h
  | .vbool _, .vint _ => isFalse fun h => Val.noConfusion h
  | .vbool _, .vlist _ => isFalse fun h => Val.noConfusion h
  | .vbool _, .vdict _ => isFalse fun h => Val.noConfusion h
  | .vlist _, .vnone => isFalse fun h => Val.noConfusion h
  | .vlist _, .vstr _ => isFalse fun h => Val.noConfusion h
  | .vlist _, .vint _ => isFalse fun h => Val.noConfusion h
  | .vlist _, .vbool _ => isFalse fun h => Val.noConfusion h
  | .vlist _, .vdict _ => isFalse fun h => Val.noConfusion h
  | .vdict _, .vnone => isFalse fun h => Val.noConfusion h
  | .vdict _, .vstr _ => isFalse fun h => Val.noConfusion h
  | .vdict _, .vint _ => isFalse fun h => Val.noConfusion h
  | .vdict _, .vbool _ => isFalse fun h => Val.noConfusion h
  | .vdict _, .vlist _ => isFalse fun h => Val.noConfusion h

/-- Decidable equality on lists of values. -/
def Val.decEqList : (xs ys : List Val) → Decidable (xs = ys)
  | [], [] => isTrue rfl
  | [], _ :: _ => isFalse fun h => List.noConfusion h
  | _ :: _, [] => isFalse fun h => List.noConfusion h
  | x :: xs, y :: ys =>
      match Val.decEq x y with
      | isFalse h1 => isFalse fun hh => h1 (List.cons.inj hh).1
      | isTrue h1 =>
          match Val.decEqList xs ys with
          | isTrue h2 => isTrue (by rw [h1, h2])
          | isFalse h2 => isFalse fun hh => h2 (List.cons.inj hh).2

/-- Decidable equality on dict entry lists. -/
def Val.decEqDict : (xs ys : List (String × Val)) → Decidable (xs = ys)
  | [], [] => isTrue rfl
  | [], _ :: _ => isFalse fun h => List.noConfusion h
  | _ :: _, [] => isFalse fun h => List.noConfusion h
  | (k, x) :: xs, (k', y) :: ys =>
      if hk : k = k' then
        match Val.decEq x y with
        | isFalse hv => isFalse fun hh => hv (congrArg Prod.snd (List.cons.inj hh).1)
        | isTrue hv =>
            match Val.decEqDict xs ys with
            | isTrue ht => isTrue (by rw [hk, hv, ht])
            | isFalse ht => isFalse fun hh => ht (List.cons.inj hh).2
      else isFalse fun hh => hk (congrArg Prod.fst (List.cons.inj hh).1)

end

instance : DecidableEq Val := Val.decEq

/-- A Python exception escaping an awaited call: either
`asyncio.exceptions.CancelledError` or any other exception. -/
inductive PyExc where
  | cancelled
  | err (s : String)
deriving Repr, DecidableEq

/-- A Python function object: its `__name__` plus an identity tag that
distinguishes distinct function objects sharing a name. -/
structure PyFunc where
  name : String
  id : Nat
deriving Repr, DecidableEq

/-- A decoded message (`json.loads` of one text frame): a Python dict. -/
abbrev Msg := List (String × Val)

/-- Python `d.get(k)`, defaulting to `None`. -/
def dictGetD (d : List (String × Val)) (k : String) : Val :=
  match d with
  | [] => Val.vnone
  | (k', v) :: rest => if k' = k then v else dictGetD rest k

/-- Python dict lookup `d[k]` / membership `k in d` over a registry. -/
def dictGet? {α : Type} : List (String × α) → String → Option α
  | [], _ => none
  | (k', v) :: rest, k => if k' = k then some v else dictGet? rest k

/-- Python dict assignment `d[k] = v`: overwrite in place if the key is
present, else append (insertion order preserved). -/
def dictInsert {α : Type} : List (String × α) → String → α → List (String × α)
  | [], k, v => [(k, v)]
  | (k', v') :: rest, k, v =>
      if k' = k then (k, v) :: rest else (k', v') :: dictInsert rest k v

/-- The handler registry: the dict passed to `create_data_handler`. -/
abbrev Registry := List (String × PyFunc)

/-- One observable step of the Python code: log calls, handler
invocations, connection-list mutation, closes, hook invocations, sends,
and the client's transport operations. -/
inductive Ev where
  | logError (s : String)
  | logInfo (s : String)
  | logWarn (s : String)
  | invoke (fid : Nat)
  | append (cid : Nat)
  | remove (cid : Nat)
  | close (cid : Nat)
  | onConnect (cid : Nat)
  | onDisconnect (v : Val)
  | send (cid : Nat) (msg : Val)
  | sessionOpen
  | connect (url : String) (ssl : Bool)
  | onConnectWs
  | closeWs
  | closeSession
deriving DecidableEq

/-- Event classifier: the events `handle_data` and the receive loops can
emit (no lifecycle side effects). -/
def Ev.isDispatch : Ev → Bool
  | .logError _ => true
  | .logInfo _ => true
  | .invoke _ => true
  | _ => false

/-- Event classifier: handler invocations. -/
def Ev.isInvoke : Ev → Bool
  | .invoke _ => true
  | _ => false

/-- Event classifier: the server teardown steps of `handle`'s `finally`. -/
def Ev.isTeardown : Ev → Bool
  | .remove _ => true
  | .close _ => true
  | .onDisconnect _ => true
  | _ => false

/-- Event classifier: the client cleanup steps of `start`'s `finally`. -/
def Ev.isCleanup : Ev → Bool
  | .closeWs => true
  | .closeSession => true
  | .onDisconnect _ => true
  | _ => false

/-- The semantics of the registered handler functions: invoking a handler
on a message either returns a value or raises.  (Handlers are external
code supplied by the application; the core treats them opaquely.) -/
abbrev HandlerSem := PyFunc → Msg → Except PyExc Val

/-- `cmd not in self._data_handler` / `self._data_handler[cmd]`: a
registry lookup keyed by an arbitrary Python value.  Only string values
can match a key (the registry's keys are strings); hashable non-string
values are simply not found; an unhashable value (a JSON array or
object) makes the membership test itself raise `TypeError`. -/
def lookupCmd (reg : Registry) : Val → Except PyExc (Option PyFunc)
  | .vstr s => Except.ok (dictGet? reg s)
  | .vlist _ => Except.error (PyExc.err "TypeError: unhashable type: \x27list\x27")
  | .vdict _ => Except.error (PyExc.err "TypeError: unhashable type: \x27dict\x27")
  | _ => Except.ok none

/-- `create_data_handler`'s decorator, first case (`@data_handler` on a
bare function): registers the function under its own `__name__`. -/
def data_handler_bare (handler : Registry) (f : PyFunc) : Registry :=
  dictInsert handler f.name f

/-- `create_data_handler`'s decorator, second case
(`@data_handler(name)` then applied to `f`): registers `f` under the
explicit `name`. -/
def data_handler_named (handler : Registry) (name : String) (f : PyFunc) : Registry :=
  dictInsert handler name f

/-- `WebSocketHandler.handle_data(data, ws)`: look up `data.get(ck)` in
the registry.  An unhashable command value makes the `cmd not in
self._data_handler` test raise before anything is logged; an unknown
(hashable) command logs one error and returns `None`; a known command
logs an info line and invokes the handler.  `ck` is the instance's
command key (`'type'`), `cn` its `__class__.__name__`.  Returns the
emitted events and the result (the handler's return value, or the
exception raised). -/
def handle_data (ck cn : String) (reg : Registry) (hsem : HandlerSem)
    (data : Msg) : List Ev × Except PyExc Val :=
  let cmd := dictGetD data ck
  match lookupCmd reg cmd with
  | Except.error e => ([], Except.error e)
  | Except.ok none =>
      ([Ev.logError ("Error: unknown command " ++ cmd.pyStr ++ " on " ++ cn)],
       Except.ok Val.vnone)
  | Except.ok (some f) =>
      ([Ev.logInfo ("handle " ++ cmd.pyStr ++ "..."), Ev.invoke f.id], hsem f data)

/-- A server-side connection: its identity in the `websockets` list, and
its `closed` status as observed when the code queries `ws.closed`. -/
structure Conn where
  id : Nat
  closed : Bool
deriving Repr, DecidableEq

/-- One item yielded by `async for msg in ws` on the server: an ERROR
frame carrying `ws.exception()`, a TEXT frame already decoded by
`json.loads`, or a frame of any other type (the loop body ignores it). -/
inductive Frame where
  | error (exn : String)
  | text (data : Msg)
  | other

/-- Python `list.remove(x)`: drop the first occurrence (here, by
connection identity; `handle` always removes a connection it appended). -/
def removeFirst : List Conn → Nat → List Conn
  | [], _ => []
  | c :: rest, i => if c.id = i then rest else c :: removeFirst rest i

/-- `WebSocketHandlerServer.broadcast_json(msg)`: iterate the
`websockets` list, skip closed connections, `await ws.send_json(msg)` on
the rest.  `sendRes` gives the outcome of each send; a raising send
propagates out of the `for` loop, so later connections get no attempt.
Returns the send attempts that occurred and the overall outcome. -/
def broadcast_json (sendRes : Nat → Except PyExc Unit) (msg : Val) :
    List Conn → List Ev × Except PyExc Unit
  | [] => ([], Except.ok ())
  | c :: rest =>
      if c.closed then broadcast_json sendRes msg rest
      else
        match sendRes c.id with
        | Except.ok () =>
            (Ev.send c.id msg :: (broadcast_json sendRes msg rest).1,
             (broadcast_json sendRes msg rest).2)
        | Except.error e => ([Ev.send c.id msg], Except.error e)

/-- The server receive loop (`async for msg in ws` in `handle`): ERROR
frames log and continue; TEXT frames are dispatched via `handle_data`,
and a truthy result becomes the new `ws_data`; a handler exception
aborts the loop.  Returns the events, the value of `ws_data` when the
loop ends, and the loop's outcome. -/
def recvLoop (ck cn : String) (reg : Registry) (hsem : HandlerSem) :
    List Frame → Val → List Ev × Val × Except PyExc Unit
  | [], wsData => ([], wsData, Except.ok ())
  | Frame.error exn :: rest, wsData =>
      (Ev.logError ("WS connection closed with exception " ++ exn)
         :: (recvLoop ck cn reg hsem rest wsData).1,
       (recvLoop ck cn reg hsem rest wsData).2)
  | Frame.other :: rest, wsData => recvLoop ck cn reg hsem rest wsData
  | Frame.text data :: rest, wsData =>
      match (handle_data ck cn reg hsem data).2 with
      | Except.error e => ((handle_data ck cn reg hsem data).1, wsData, Except.error e)
      | Except.ok ret =>
          ((handle_data ck cn reg hsem data).1
             ++ (recvLoop ck cn reg hsem rest (if ret.truthy then ret else wsData)).1,
           (recvLoop ck cn reg hsem rest (if ret.truthy then ret else wsData)).2)

/-- The `finally` block of `WebSocketHandlerServer.handle`:
`self.websockets.remove(ws)`, then `await ws.close()` unless already
closed, then `await self.on_disconnect(ws_data)`. -/
def serverTeardown (conn : Conn) (st : List Conn) (wsData : Val) : List Ev × List Conn :=
  (Ev.remove conn.id ::
     ((if conn.closed then [] else [Ev.close conn.id]) ++ [Ev.onDisconnect wsData]),
   removeFirst st conn.id)

/-- The `ws_data` value `handle` passes to `on_disconnect`: `None` if
`on_connect` raised before the loop ran, else the loop's last retained
truthy dispatch outcome. -/
def serverRetained (ck cn : String) (reg : Registry) (hsem : HandlerSem)
    (onConnectRes : Except PyExc Unit) (frames : List Frame) : Val :=
  match onConnectRes with
  | Except.error _ => Val.vnone
  | Except.ok () => (recvLoop ck cn reg hsem frames Val.vnone).2.1

/-- `WebSocketHandlerServer.handle(ws)`: append `ws` to `websockets`,
invoke `on_connect` (whose outcome is the parameter `onConnectRes`), run
the receive loop over the connection's frames, and in all cases run the
`finally` teardown.  `st` is the `websockets` list when `handle` is
entered.  Returns the events, the final `websockets` list, and the
outcome (`error` when an exception propagates out of `handle`). -/
def serverHandle (ck cn : String) (reg : Registry) (hsem : HandlerSem)
    (onConnectRes : Except PyExc Unit) (frames : List Frame)
    (conn : Conn) (st : List Conn) : List Ev × List Conn × Except PyExc Unit :=
  match onConnectRes with
  | Except.error e =>
      (Ev.append conn.id :: Ev.onConnect conn.id
         :: (serverTeardown conn (st ++ [conn]) Val.vnone).1,
       (serverTeardown conn (st ++ [conn]) Val.vnone).2, Except.error e)
  | Except.ok () =>
      (Ev.append conn.id :: Ev.onConnect conn.id
         :: ((recvLoop ck cn reg hsem frames Val.vnone).1
              ++ (serverTeardown conn (st ++ [conn])
                    (recvLoop ck cn reg hsem frames Val.vnone).2.1).1),
       (serverTeardown conn (st ++ [conn])
          (recvLoop ck cn reg hsem frames Val.vnone).2.1).2,
       (recvLoop ck cn reg hsem frames Val.vnone).2.2)

/-- The client receive loop (`async for message in ws` in `start`): each
message is decoded and dispatched; the return value is discarded; a
handler exception aborts the loop.  `recvExc` models an exception raised
while awaiting the next frame (e.g. a cancellation delivered mid-receive)
after the listed messages. -/
def clientLoop (ck cn : String) (reg : Registry) (hsem : HandlerSem) :
    List Msg → Option PyExc → List Ev × Except PyExc Unit
  | [], none => ([], Except.ok ())
  | [], some e => ([], Except.error e)
  | m :: rest, rexc =>
      match (handle_data ck cn reg hsem m).2 with
      | Except.error e => ((handle_data ck cn reg hsem m).1, Except.error e)
      | Except.ok _ =>
          ((handle_data ck cn reg hsem m).1 ++ (clientLoop ck cn reg hsem rest rexc).1,
           (clientLoop ck cn reg hsem rest rexc).2)

/-- The `try` body of `WebSocketHandlerClient.start`: log, `await
self.session.ws_connect(self.url, ssl=self.ssl)` (outcome `connectRes`;
on failure `self.ws` is never assigned), assign `self.ws`, `await
self.on_connect(ws)` (outcome `onConnectRes`), then the receive loop.
Returns events, whether `self.ws` was assigned, and the body outcome. -/
def clientBody (ck cn : String) (reg : Registry) (hsem : HandlerSem)
    (url : String) (ssl : Bool) (connectRes onConnectRes : Except PyExc Unit)
    (frames : List Msg) (recvExc : Option PyExc) : List Ev × Bool × Except PyExc Unit :=
  let pre := [Ev.logInfo ("Connecting to " ++ url ++ "..."), Ev.connect url ssl]
  match connectRes with
  | Except.error e => (pre, false, Except.error e)
  | Except.ok () =>
      match onConnectRes with
      | Except.error e => (pre ++ [Ev.onConnectWs], true, Except.error e)
      | Except.ok () =>
          (pre ++ [Ev.onConnectWs] ++ (clientLoop ck cn reg hsem frames recvExc).1,
           true, (clientLoop ck cn reg hsem frames recvExc).2)

/-- `WebSocketHandlerClient.start()`: the `try` body, then `except
asyncio.exceptions.CancelledError` (log a warning and swallow it), then
the `finally` cleanup: `await self.ws.close()` if `self.ws` was set,
`await self.session.close()` (the session always exists), `await
self.on_disconnect(None)`.  Returns the events, whether `self.ws` was
assigned, and `start`'s outcome. -/
def clientStart (ck cn : String) (reg : Registry) (hsem : HandlerSem)
    (url : String) (ssl : Bool) (connectRes onConnectRes : Except PyExc Unit)
    (frames : List Msg) (recvExc : Option PyExc) : List Ev × Bool × Except PyExc Unit :=
  let b := clientBody ck cn reg hsem url ssl connectRes onConnectRes frames recvExc
  (b.1 ++
     (match b.2.2 with
      | Except.error PyExc.cancelled => [Ev.logWarn "Keyboard Interrupt, exiting..."]
      | _ => []) ++
     ((if b.2.1 then [Ev.closeWs] else []) ++ [Ev.closeSession, Ev.onDisconnect Val.vnone]),
   b.2.1,
   match b.2.2 with
   | Except.error PyExc.cancelled => Except.ok ()
   | r => r)

/-- `WebSocketHandlerClient.__init__`: sets url and ssl and opens the
underlying transport session (`self.session = aiohttp.ClientSession()`). -/
def clientInitEvents : List Ev := [Ev.sessionOpen]

/-- The full observable trace of constructing a client and calling
`start()` once: the constructor's events followed by `start`'s. -/
def clientRun (ck cn : String) (reg : Registry) (hsem : HandlerSem)
    (url : String) (ssl : Bool) (connectRes onConnectRes : Except PyExc Unit)
    (frames : List Msg) (recvExc : Option PyExc) : List Ev × Bool × Except PyExc Unit :=
  (clientInitEvents
     ++ (clientStart ck cn reg hsem url ssl connectRes onConnectRes frames recvExc).1,
   (clientStart ck cn reg hsem url ssl connectRes onConnectRes frames recvExc).2)

/-! ### Registry lemmas -/

theorem dictGet?_insert_self {α : Type} (d : List (String × α)) (k : String) (v : α) :
    dictGet? (dictInsert d k v) k = some v := by
  induction d with
  | nil => simp [dictInsert, dictGet?]
  | cons kv rest ih =>
      obtain ⟨k', v'⟩ := kv
      by_cases hk : k' = k
      · simp [dictInsert, hk, dictGet?]
      · simp [dictInsert, hk, dictGet?, ih]

theorem dictGet?_insert_ne {α : Type} (d : List (String × α)) (k k' : String) (v : α)
    (h : k' ≠ k) : dictGet? (dictInsert d k v) k' = dictGet? d k' := by
  have hne : ¬(k = k') := fun hh => h hh.symm
  induction d with
  | nil =>
      simp only [dictInsert, dictGet?]
      rw [if_neg hne]
  | cons kv rest ih =>
      obtain ⟨k₀, v₀⟩ := kv
      by_cases hk : k₀ = k
      · subst hk
        simp only [dictInsert, if_pos rfl, dictGet?]
        rw [if_neg hne, if_neg hne]
      · simp only [dictInsert, if_neg hk, dictGet?, ih]

theorem dictInsert_insert_same {α : Type} (d : List (String × α)) (k : String) (a b : α) :
    dictInsert (dictInsert d k a) k b = dictInsert d k b := by
  induction d with
  | nil => simp [dictInsert]
  | cons kv rest ih =>
      obtain ⟨k₀, v₀⟩ := kv
      by_cases hk : k₀ = k
      · simp [dictInsert, hk]
      · simp [dictInsert, hk, ih]

/-- Dispatch of a registered command: one info log, then the handler
invocation, whether or not the handler raises. -/
theorem handle_data_known (ck cn : String) (reg : Registry) (hsem : HandlerSem)
    (data : Msg) (f : PyFunc)
    (h : lookupCmd reg (dictGetD data ck) = Except.ok (some f)) :
    (handle_data ck cn reg hsem data).1
      = [Ev.logInfo ("handle " ++ (dictGetD data ck).pyStr ++ "..."), Ev.invoke f.id] := by
  simp only [handle_data]
  rw [h]

/-! ### Claim theorems: registry and dispatch -/

/-- C8: a registration with an explicit name is keyed by that name,
whatever the function's own `__name__`; a bare registration is keyed by
the function's own `__name__`; no other key of the registry changes. -/
theorem registration_key_semantics (reg : Registry) (name : String) (f g : PyFunc) :
    dictGet? (data_handler_named reg name f) name = some f ∧
    dictGet? (data_handler_bare reg g) g.name = some g ∧
    (∀ k, k ≠ name → dictGet? (data_handler_named reg name f) k = dictGet? reg k) ∧
    (∀ k, k ≠ g.name → dictGet? (data_handler_bare reg g) k = dictGet? reg k) := by
  refine ⟨dictGet?_insert_self reg name f, dictGet?_insert_self reg g.name g, ?_, ?_⟩
  · intro k hk
    exact dictGet?_insert_ne reg name k f hk
  · intro k hk
    exact dictGet?_insert_ne reg g.name k g hk

/-- C8 witness: registering `f` (whose `__name__` is `"f"`) under the
explicit name `"x"` keys it by `"x"`. -/
theorem registration_key_semantics_witness :
    dictGet? (data_handler_named [] "x" ⟨"f", 0⟩) "x" = some ⟨"f", 0⟩ :=
  (registration_key_semantics [] "x" ⟨"f", 0⟩ ⟨"g", 1⟩).1

/-- C9: registering `A` then `B` under the same key `"x"` yields the very
registry that registering `B` alone yields (last registration wins, no
error), and dispatching a message of type `"x"` against it invokes
exactly `B`. -/
theorem reregistration_overwrites (reg : Registry) (cn : String) (hsem : HandlerSem)
    (A B : PyFunc) :
    data_handler_named (data_handler_named reg "x" A) "x" B = data_handler_named reg "x" B ∧
    (handle_data "type" cn (data_handler_named (data_handler_named reg "x" A) "x" B) hsem
        [("type", Val.vstr "x")]).1.filter Ev.isInvoke = [Ev.invoke B.id] := by
  constructor
  · exact dictInsert_insert_same reg "x" A B
  · have hget : lookupCmd (data_handler_named (data_handler_named reg "x" A) "x" B)
        (dictGetD [("type", Val.vstr "x")] "type") = Except.ok (some B) := by
      have h1 : dictGetD [("type", Val.vstr "x")] "type" = Val.vstr "x" := rfl
      rw [h1]
      simp only [lookupCmd, data_handler_named]
      rw [dictGet?_insert_self]
    rw [handle_data_known "type" cn _ hsem _ B hget]
    rfl

/-- C6 counterexample: a message whose `type` field is a JSON array is
"not a key of the registry", yet dispatching it does not log the
unknown-command error and does not return `None` — the dict-membership
test `cmd not in self._data_handler` raises `TypeError` (lists are
unhashable), which propagates out of `handle_data`. -/
theorem unknown_command_unhashable_counterexample :
    handle_data "type" "WebSocketHandlerServer" [] (fun _ _ => Except.ok Val.vnone)
        [("type", Val.vlist [Val.vint 1])]
      = ([], Except.error (PyExc.err "TypeError: unhashable type: \x27list\x27")) := rfl

/-- C6 (amended): when the message's command value (defaulting to `None`
if the key is absent) is absent or is a hashable value — null, number,
boolean, or a string that is not a registry key — `handle_data` emits
exactly one error log naming the command and the class name, invokes
nothing, raises nothing, and returns `None`.  (When the command value is
a JSON array or object, the membership test itself raises `TypeError`
instead: nothing is logged and no handler is invoked.) -/
theorem unknown_command_dispatch (ck cn : String) (reg : Registry) (hsem : HandlerSem)
    (data : Msg) (h : lookupCmd reg (dictGetD data ck) = Except.ok none) :
    handle_data ck cn reg hsem data =
      ([Ev.logError ("Error: unknown command " ++ (dictGetD data ck).pyStr ++ " on " ++ cn)],
       Except.ok Val.vnone) := by
  simp [handle_data, h]

/-- C6 witness: a message with no `type` field, against an empty
registry, logs the unknown-command error with `None` and returns `None`. -/
theorem unknown_command_dispatch_witness :
    handle_data "type" "WebSocketHandlerServer" [] (fun _ _ => Except.ok Val.vnone) [] =
      ([Ev.logError "Error: unknown command None on WebSocketHandlerServer"],
       Except.ok Val.vnone) :=
  unknown_command_dispatch "type" "WebSocketHandlerServer" []
    (fun _ _ => Except.ok Val.vnone) [] rfl

/-! ### Claim theorems: broadcast -/

theorem broadcast_append_ok (sendRes : Nat → Except PyExc Unit) (msg : Val)
    (pre rest : List Conn)
    (h : ∀ c ∈ pre, c.closed = false → sendRes c.id = Except.ok ()) :
    broadcast_json sendRes msg (pre ++ rest)
      = ((pre.filter (fun c => !c.closed)).map (fun c => Ev.send c.id msg)
           ++ (broadcast_json sendRes msg rest).1,
         (broadcast_json sendRes msg rest).2) := by
  induction pre with
  | nil => simp
  | cons c pre ih =>
      have hpre : ∀ c' ∈ pre, c'.closed = false → sendRes c'.id = Except.ok () :=
        fun c' hc' => h c' (List.mem_cons_of_mem c hc')
      rw [List.cons_append]
      by_cases hc : c.closed
      · have hstep : broadcast_json sendRes msg (c :: (pre ++ rest))
            = broadcast_json sendRes msg (pre ++ rest) := by
          simp [broadcast_json, hc]
        rw [hstep, ih hpre]
        simp [List.filter_cons, hc]
      · have hs : sendRes c.id = Except.ok () :=
          h c (List.mem_cons_self c pre) (by simpa using hc)
        have hstep : broadcast_json sendRes msg (c :: (pre ++ rest))
            = (Ev.send c.id msg :: (broadcast_json sendRes msg (pre ++ rest)).1,
               (broadcast_json sendRes msg (pre ++ rest)).2) := by
          simp [broadcast_json, hc, hs]
        rw [hstep, ih hpre]
        simp [List.filter_cons, hc]

/-- C1 counterexample: two open connections, the send to the first one
raises; the code makes only one send attempt — the second connection
gets none — and the exception propagates out of `broadcast_json`. -/
theorem broadcast_counterexample :
    (broadcast_json (fun i => if i = 0 then Except.error (PyExc.err "boom") else Except.ok ())
        (Val.vstr "x") [⟨0, false⟩, ⟨1, false⟩]).1 = [Ev.send 0 (Val.vstr "x")] ∧
    Ev.send 1 (Val.vstr "x") ∉
      (broadcast_json (fun i => if i = 0 then Except.error (PyExc.err "boom") else Except.ok ())
        (Val.vstr "x") [⟨0, false⟩, ⟨1, false⟩]).1 ∧
    (broadcast_json (fun i => if i = 0 then Except.error (PyExc.err "boom") else Except.ok ())
        (Val.vstr "x") [⟨0, false⟩, ⟨1, false⟩]).2 = Except.error (PyExc.err "boom") := by
  refine ⟨rfl, ?_, rfl⟩
  decide

/-- C1 (amended): `broadcast_json` attempts a send to each non-closed
connection of the active list in order; if every send succeeds there are
exactly N attempts (one per non-closed connection); if a send raises,
the attempts before it and the failing attempt occur, the exception
propagates, and the connections after the failing one get no attempt. -/
theorem broadcast_attempts (sendRes : Nat → Except PyExc Unit) (msg : Val)
    (conns : List Conn) :
    ((∀ c ∈ conns, c.closed = false → sendRes c.id = Except.ok ()) →
       (broadcast_json sendRes msg conns).1
           = (conns.filter (fun c => !c.closed)).map (fun c => Ev.send c.id msg) ∧
       (broadcast_json sendRes msg conns).2 = Except.ok ()) ∧
    (∀ pre c post e, conns = pre ++ c :: post →
       (∀ c' ∈ pre, c'.closed = false → sendRes c'.id = Except.ok ()) →
       c.closed = false → sendRes c.id = Except.error e →
       (broadcast_json sendRes msg conns).1
           = (pre.filter (fun c' => !c'.closed)).map (fun c' => Ev.send c'.id msg)
               ++ [Ev.send c.id msg] ∧
       (broadcast_json sendRes msg conns).2 = Except.error e) := by
  constructor
  · intro h
    have := broadcast_append_ok sendRes msg conns [] h
    rw [List.append_nil] at this
    rw [this]
    simp [broadcast_json]
  · intro pre c post e hsplit hpre hopen hfail
    subst hsplit
    have := broadcast_append_ok sendRes msg pre (c :: post) hpre
    rw [this]
    have hcl : ¬(c.closed = true) := by simp [hopen]
    simp [broadcast_json, hcl, hfail]

/-- C1 witness: with two open connections and all sends succeeding,
exactly the two send attempts occur and broadcast returns normally. -/
theorem broadcast_attempts_witness :
    (broadcast_json (fun _ => Except.ok ()) (Val.vstr "x") [⟨0, false⟩, ⟨1, false⟩]).1
        = [Ev.send 0 (Val.vstr "x"), Ev.send 1 (Val.vstr "x")] ∧
    (broadcast_json (fun _ => Except.ok ()) (Val.vstr "x") [⟨0, false⟩, ⟨1, false⟩]).2
        = Except.ok () :=
  (broadcast_attempts (fun _ => Except.ok ()) (Val.vstr "x") [⟨0, false⟩, ⟨1, false⟩]).1
    (by intro c _ _; rfl)

/-! ### Event-classification and counting lemmas -/

theorem isDispatch_not_teardown (e : Ev) (h : e.isDispatch = true) : e.isTeardown = false := by
  cases e <;> simp_all [Ev.isDispatch, Ev.isTeardown]

theorem isDispatch_not_cleanup (e : Ev) (h : e.isDispatch = true) : e.isCleanup = false := by
  cases e <;> simp_all [Ev.isDispatch, Ev.isCleanup]

theorem handle_data_events_dispatch (ck cn : String) (reg : Registry) (hsem : HandlerSem)
    (data : Msg) : ∀ e ∈ (handle_data ck cn reg hsem data).1, e.isDispatch = true := by
  intro e he
  simp only [handle_data] at he
  cases hl : lookupCmd reg (dictGetD data ck) with
  | error ex =>
      rw [hl] at he
      simp at he
  | ok o =>
      cases o with
      | none =>
          rw [hl] at he
          rcases List.mem_singleton.mp he with rfl
          rfl
      | some f =>
          rw [hl] at he
          rcases List.mem_cons.mp he with rfl | h2
          · rfl
          · rcases List.mem_singleton.mp h2 with rfl
            rfl

theorem recvLoop_events_dispatch (ck cn : String) (reg : Registry) (hsem : HandlerSem) :
    ∀ (frames : List Frame) (wsData : Val),
      ∀ e ∈ (recvLoop ck cn reg hsem frames wsData).1, e.isDispatch = true := by
  intro frames
  induction frames with
  | nil => intro wsData e he; simp [recvLoop] at he
  | cons fr rest ih =>
      intro wsData e he
      cases fr with
      | error exn =>
          simp only [recvLoop] at he
          rcases List.mem_cons.mp he with rfl | h2
          · rfl
          · exact ih wsData e h2
      | other =>
          simp only [recvLoop] at he
          exact ih wsData e he
      | text data =>
          simp only [recvLoop] at he
          cases hres : (handle_data ck cn reg hsem data).2 <;> rw [hres] at he
          · exact handle_data_events_dispatch ck cn reg hsem data e he
          · rcases List.mem_append.mp he with h1 | h2
            · exact handle_data_events_dispatch ck cn reg hsem data e h1
            · exact ih _ e h2

theorem clientLoop_events_dispatch (ck cn : String) (reg : Registry) (hsem : HandlerSem) :
    ∀ (frames : List Msg) (recvExc : Option PyExc),
      ∀ e ∈ (clientLoop ck cn reg hsem frames recvExc).1, e.isDispatch = true := by
  intro frames
  induction frames with
  | nil =>
      intro recvExc e he
      cases recvExc <;> simp [clientLoop] at he
  | cons m rest ih =>
      intro recvExc e he
      simp only [clientLoop] at he
      cases hres : (handle_data ck cn reg hsem m).2 <;> rw [hres] at he
      · exact handle_data_events_dispatch ck cn reg hsem m e he
      · rcases List.mem_append.mp he with h1 | h2
        · exact handle_data_events_dispatch ck cn reg hsem m e h1
        · exact ih recvExc e h2

/-- Occurrence count of an event in a trace. -/
def countEv (a : Ev) : List Ev → Nat
  | [] => 0
  | e :: rest => (if e = a then 1 else 0) + countEv a rest

theorem countEv_append (a : Ev) (l m : List Ev) :
    countEv a (l ++ m) = countEv a l + countEv a m := by
  induction l with
  | nil => simp [countEv]
  | cons e rest ih => simp [countEv, ih]; omega

theorem countEv_zero_of_ne (a : Ev) (l : List Ev) (h : ∀ e ∈ l, e ≠ a) :
    countEv a l = 0 := by
  induction l with
  | nil => rfl
  | cons e rest ih =>
      simp only [countEv]
      rw [if_neg (h e (List.mem_cons_self e rest))]
      simpa using ih fun e' he' => h e' (List.mem_cons_of_mem e he')

theorem removeFirst_append_self (st : List Conn) (conn : Conn)
    (h : conn.id ∉ st.map Conn.id) :
    removeFirst (st ++ [conn]) conn.id = st := by
  induction st with
  | nil => simp [removeFirst]
  | cons c rest ih =>
      have hc : ¬(c.id = conn.id) := by
        intro hcc
        exact h (by simp [hcc])
      have hrest : conn.id ∉ rest.map Conn.id := by
        intro hm
        exact h (by simp [hm])
      simp [removeFirst, hc, ih hrest]

/-! ### Server-lifecycle helper lemmas -/

/-- The events `handle` emits before its `finally` block runs: the
append, the `on_connect` invocation, and (when `on_connect` returned)
the receive-loop events. -/
def serverPrefixEvents (ck cn : String) (reg : Registry) (hsem : HandlerSem)
    (onConnectRes : Except PyExc Unit) (frames : List Frame) (conn : Conn) : List Ev :=
  match onConnectRes with
  | Except.error _ => [Ev.append conn.id, Ev.onConnect conn.id]
  | Except.ok () =>
      Ev.append conn.id :: Ev.onConnect conn.id
        :: (recvLoop ck cn reg hsem frames Val.vnone).1

/-- The events of `handle`'s `finally` block. -/
def serverTeardownEvents (conn : Conn) (w : Val) : List Ev :=
  Ev.remove conn.id :: ((if conn.closed then [] else [Ev.close conn.id]) ++ [Ev.onDisconnect w])

theorem serverHandle_events_eq (ck cn : String) (reg : Registry) (hsem : HandlerSem)
    (onConnectRes : Except PyExc Unit) (frames : List Frame) (conn : Conn) (st : List Conn) :
    (serverHandle ck cn reg hsem onConnectRes frames conn st).1
      = serverPrefixEvents ck cn reg hsem onConnectRes frames conn
          ++ serverTeardownEvents conn (serverRetained ck cn reg hsem onConnectRes frames) := by
  cases onConnectRes with
  | error e =>
      simp [serverHandle, serverTeardown, serverRetained, serverPrefixEvents,
        serverTeardownEvents]
  | ok u =>
      cases u
      simp [serverHandle, serverTeardown, serverRetained, serverPrefixEvents,
        serverTeardownEvents]

theorem serverHandle_state_eq (ck cn : String) (reg : Registry) (hsem : HandlerSem)
    (onConnectRes : Except PyExc Unit) (frames : List Frame) (conn : Conn) (st : List Conn) :
    (serverHandle ck cn reg hsem onConnectRes frames conn st).2.1
      = removeFirst (st ++ [conn]) conn.id := by
  cases onConnectRes with
  | error e => rfl
  | ok u => cases u; rfl

theorem serverPrefixEvents_no_teardown (ck cn : String) (reg : Registry) (hsem : HandlerSem)
    (onConnectRes : Except PyExc Unit) (frames : List Frame) (conn : Conn) :
    ∀ e ∈ serverPrefixEvents ck cn reg hsem onConnectRes frames conn,
      e.isTeardown = false := by
  intro e he
  cases onConnectRes with
  | error ex =>
      rcases List.mem_cons.mp he with rfl | h2
      · rfl
      · rcases List.mem_singleton.mp h2 with rfl
        rfl
  | ok u =>
      cases u
      rcases List.mem_cons.mp he with rfl | h2
      · rfl
      · rcases List.mem_cons.mp h2 with rfl | h3
        · rfl
        · exact isDispatch_not_teardown e
            (recvLoop_events_dispatch ck cn reg hsem frames Val.vnone e h3)

theorem serverPrefixEvents_counts (ck cn : String) (reg : Registry) (hsem : HandlerSem)
    (onConnectRes : Except PyExc Unit) (frames : List Frame) (conn : Conn) :
    countEv (Ev.append conn.id)
        (serverPrefixEvents ck cn reg hsem onConnectRes frames conn) = 1 ∧
    countEv (Ev.remove conn.id)
        (serverPrefixEvents ck cn reg hsem onConnectRes frames conn) = 0 := by
  have hloopA : countEv (Ev.append conn.id) (recvLoop ck cn reg hsem frames Val.vnone).1 = 0 := by
    refine countEv_zero_of_ne _ _ fun e he heq => ?_
    have := recvLoop_events_dispatch ck cn reg hsem frames Val.vnone e he
    rw [heq] at this
    simp [Ev.isDispatch] at this
  have hloopR : countEv (Ev.remove conn.id) (recvLoop ck cn reg hsem frames Val.vnone).1 = 0 := by
    refine countEv_zero_of_ne _ _ fun e he heq => ?_
    have := recvLoop_events_dispatch ck cn reg hsem frames Val.vnone e he
    rw [heq] at this
    simp [Ev.isDispatch] at this
  cases onConnectRes with
  | error ex => simp [serverPrefixEvents, countEv]
  | ok u => cases u; simp [serverPrefixEvents, countEv, hloopA, hloopR]

theorem serverTeardownEvents_counts (conn : Conn) (w : Val) :
    countEv (Ev.append conn.id) (serverTeardownEvents conn w) = 0 ∧
    countEv (Ev.remove conn.id) (serverTeardownEvents conn w) = 1 := by
  by_cases hc : conn.closed <;> simp [serverTeardownEvents, countEv, hc]

/-! ### Claim theorems: server lifecycle -/

/-- C2: on every termination of a server connection's receive loop —
normal stream end, or an unhandled error from a handler or from
`on_connect` — the trace ends with the teardown steps in exactly this
order: remove from the active list, close the connection if not already
closed, invoke `on_disconnect` with the last retained outcome; no
teardown step occurs earlier, and the final `websockets` list is the
entry list with this connection removed. -/
theorem serverHandle_teardown (ck cn : String) (reg : Registry) (hsem : HandlerSem)
    (onConnectRes : Except PyExc Unit) (frames : List Frame) (conn : Conn) (st : List Conn) :
    ∃ p, (serverHandle ck cn reg hsem onConnectRes frames conn st).1
        = p ++ Ev.remove conn.id
            :: ((if conn.closed then [] else [Ev.close conn.id])
                 ++ [Ev.onDisconnect (serverRetained ck cn reg hsem onConnectRes frames)]) ∧
      (∀ e ∈ p, e.isTeardown = false) ∧
      (serverHandle ck cn reg hsem onConnectRes frames conn st).2.1
        = removeFirst (st ++ [conn]) conn.id :=
  ⟨serverPrefixEvents ck cn reg hsem onConnectRes frames conn,
   serverHandle_events_eq ck cn reg hsem onConnectRes frames conn st,
   serverPrefixEvents_no_teardown ck cn reg hsem onConnectRes frames conn,
   serverHandle_state_eq ck cn reg hsem onConnectRes frames conn st⟩

/-- C2 witness: concrete run (empty frame stream, connection still open at
teardown). -/
theorem serverHandle_teardown_witness :
    ∃ p, (serverHandle "type" "S" [] (fun _ _ => Except.ok Val.vnone) (Except.ok ())
            [] ⟨0, false⟩ []).1
        = p ++ Ev.remove 0
            :: ((if (Conn.mk 0 false).closed then [] else [Ev.close 0])
                 ++ [Ev.onDisconnect
                       (serverRetained "type" "S" [] (fun _ _ => Except.ok Val.vnone)
                          (Except.ok ()) [])]) ∧
      (∀ e ∈ p, e.isTeardown = false) ∧
      (serverHandle "type" "S" [] (fun _ _ => Except.ok Val.vnone) (Except.ok ())
            [] ⟨0, false⟩ []).2.1
        = removeFirst ([] ++ [⟨0, false⟩]) 0 :=
  serverHandle_teardown "type" "S" [] (fun _ _ => Except.ok Val.vnone) (Except.ok ())
    [] ⟨0, false⟩ []

/-- C4: during one `handle` call on a connection not already in the
active list, the connection is appended exactly once (as the very first
step, before the loop), removed exactly once, and the final active list
equals the entry list — no duplicate add or remove on any exit path. -/
theorem serverHandle_active_set (ck cn : String) (reg : Registry) (hsem : HandlerSem)
    (onConnectRes : Except PyExc Unit) (frames : List Frame) (conn : Conn) (st : List Conn)
    (h : conn.id ∉ st.map Conn.id) :
    countEv (Ev.append conn.id) (serverHandle ck cn reg hsem onConnectRes frames conn st).1 = 1 ∧
    countEv (Ev.remove conn.id) (serverHandle ck cn reg hsem onConnectRes frames conn st).1 = 1 ∧
    (serverHandle ck cn reg hsem onConnectRes frames conn st).1.head?
        = some (Ev.append conn.id) ∧
    (serverHandle ck cn reg hsem onConnectRes frames conn st).2.1 = st := by
  have hev := serverHandle_events_eq ck cn reg hsem onConnectRes frames conn st
  have hpre := serverPrefixEvents_counts ck cn reg hsem onConnectRes frames conn
  have htd := serverTeardownEvents_counts conn
    (serverRetained ck cn reg hsem onConnectRes frames)
  refine ⟨?_, ?_, ?_, ?_⟩
  · rw [hev, countEv_append, hpre.1, htd.1]
  · rw [hev, countEv_append, hpre.2, htd.2]
  · rw [hev]
    cases onConnectRes with
    | error ex => rfl
    | ok u => cases u; rfl
  · rw [serverHandle_state_eq ck cn reg hsem onConnectRes frames conn st,
      removeFirst_append_self st conn h]

/-- C4 witness: one `handle` call on connection 0 against an empty active
list (one frame, still open at teardown): one append, one remove, append
first, final list unchanged. -/
theorem serverHandle_active_set_witness :
    countEv (Ev.append 0)
        (serverHandle "type" "S" [] (fun _ _ => Except.ok Val.vnone) (Except.ok ())
           [Frame.other] ⟨0, false⟩ []).1 = 1 ∧
    countEv (Ev.remove 0)
        (serverHandle "type" "S" [] (fun _ _ => Except.ok Val.vnone) (Except.ok ())
           [Frame.other] ⟨0, false⟩ []).1 = 1 ∧
    (serverHandle "type" "S" [] (fun _ _ => Except.ok Val.vnone) (Except.ok ())
           [Frame.other] ⟨0, false⟩ []).1.head? = some (Ev.append 0) ∧
    (serverHandle "type" "S" [] (fun _ _ => Except.ok Val.vnone) (Except.ok ())
           [Frame.other] ⟨0, false⟩ []).2.1 = [] :=
  serverHandle_active_set "type" "S" [] (fun _ _ => Except.ok Val.vnone) (Except.ok ())
    [Frame.other] ⟨0, false⟩ [] (by simp)

/-- C10: if `on_connect` itself raises, the receive loop never runs, yet
the already-appended connection is removed, closed if not already
closed, and `on_disconnect(None)` is invoked, before the exception
propagates out of `handle` — the final active list is the entry list. -/
theorem serverHandle_onconnect_raises (ck cn : String) (reg : Registry) (hsem : HandlerSem)
    (ex : PyExc) (frames : List Frame) (conn : Conn) (st : List Conn)
    (h : conn.id ∉ st.map Conn.id) :
    serverHandle ck cn reg hsem (Except.error ex) frames conn st
      = (Ev.append conn.id :: Ev.onConnect conn.id :: Ev.remove conn.id
           :: ((if conn.closed then [] else [Ev.close conn.id]) ++ [Ev.onDisconnect Val.vnone]),
         st, Except.error ex) := by
  have hrm := removeFirst_append_self st conn h
  simp [serverHandle, serverTeardown, hrm]

/-- C10 witness: `on_connect` raising on a fresh connection (second
connection already active) removes it, closes it, runs
`on_disconnect(None)`, and re-raises. -/
theorem serverHandle_onconnect_raises_witness :
    serverHandle "type" "S" [] (fun _ _ => Except.ok Val.vnone) (Except.error (PyExc.err "hook"))
        [] ⟨1, false⟩ [⟨0, false⟩]
      = (Ev.append 1 :: Ev.onConnect 1 :: Ev.remove 1
           :: ((if (Conn.mk 1 false).closed then [] else [Ev.close 1])
                ++ [Ev.onDisconnect Val.vnone]),
         [⟨0, false⟩], Except.error (PyExc.err "hook")) :=
  serverHandle_onconnect_raises "type" "S" [] (fun _ _ => Except.ok Val.vnone)
    (PyExc.err "hook") [] ⟨1, false⟩ [⟨0, false⟩] (by simp)

/-! ### Client-lifecycle helper lemmas -/

/-- Whether an operation returned normally. -/
def exceptOk (r : Except PyExc Unit) : Bool :=
  match r with
  | Except.ok _ => true
  | Except.error _ => false

theorem clientBody_events_no_cleanup (ck cn : String) (reg : Registry) (hsem : HandlerSem)
    (url : String) (ssl : Bool) (connectRes onConnectRes : Except PyExc Unit)
    (frames : List Msg) (recvExc : Option PyExc) :
    ∀ e ∈ (clientBody ck cn reg hsem url ssl connectRes onConnectRes frames recvExc).1,
      e.isCleanup = false := by
  intro e he
  cases connectRes with
  | error ex =>
      rcases List.mem_cons.mp he with rfl | h2
      · rfl
      · rcases List.mem_singleton.mp h2 with rfl
        rfl
  | ok u =>
      cases u
      cases onConnectRes with
      | error ex =>
          simp only [clientBody, List.mem_append] at he
          rcases he with h1 | h2
          · rcases List.mem_cons.mp h1 with rfl | h3
            · rfl
            · rcases List.mem_singleton.mp h3 with rfl
              rfl
          · rcases List.mem_singleton.mp h2 with rfl
            rfl
      | ok v =>
          cases v
          simp only [clientBody, List.mem_append] at he
          rcases he with (h1 | h2) | h3
          · rcases List.mem_cons.mp h1 with rfl | h4
            · rfl
            · rcases List.mem_singleton.mp h4 with rfl
              rfl
          · rcases List.mem_singleton.mp h2 with rfl
            rfl
          · exact isDispatch_not_cleanup e
              (clientLoop_events_dispatch ck cn reg hsem frames recvExc e h3)

theorem clientBody_wsSet (ck cn : String) (reg : Registry) (hsem : HandlerSem)
    (url : String) (ssl : Bool) (connectRes onConnectRes : Except PyExc Unit)
    (frames : List Msg) (recvExc : Option PyExc) :
    (clientBody ck cn reg hsem url ssl connectRes onConnectRes frames recvExc).2.1
      = exceptOk connectRes := by
  cases connectRes with
  | error ex => rfl
  | ok u =>
      cases u
      cases onConnectRes with
      | error ex => rfl
      | ok v => cases v; rfl

/-! ### Claim theorems: client lifecycle -/

/-- C3: however `start()` exits — normal stream end, cancellation,
connect failure, or an unhandled error from `on_connect` or a handler —
the trace ends with the cleanup steps, in order: close the connection if
one was stored, close the transport session, invoke
`on_disconnect(None)`; no cleanup step occurs anywhere earlier, so the
sequence runs exactly once; and the connection was stored iff the
connect succeeded. -/
theorem clientStart_cleanup (ck cn : String) (reg : Registry) (hsem : HandlerSem)
    (url : String) (ssl : Bool) (connectRes onConnectRes : Except PyExc Unit)
    (frames : List Msg) (recvExc : Option PyExc) :
    ∃ p, (clientStart ck cn reg hsem url ssl connectRes onConnectRes frames recvExc).1
        = p ++ ((if (clientStart ck cn reg hsem url ssl connectRes onConnectRes
                      frames recvExc).2.1
                  then [Ev.closeWs] else [])
                 ++ [Ev.closeSession, Ev.onDisconnect Val.vnone]) ∧
      (∀ e ∈ p, e.isCleanup = false) ∧
      (clientStart ck cn reg hsem url ssl connectRes onConnectRes frames recvExc).2.1
        = exceptOk connectRes := by
  refine ⟨(clientBody ck cn reg hsem url ssl connectRes onConnectRes frames recvExc).1 ++
      (match (clientBody ck cn reg hsem url ssl connectRes onConnectRes frames recvExc).2.2 with
       | Except.error PyExc.cancelled => [Ev.logWarn "Keyboard Interrupt, exiting..."]
       | _ => []), ?_, ?_, ?_⟩
  · simp [clientStart]
  · intro e he
    rcases List.mem_append.mp he with h1 | h2
    · exact clientBody_events_no_cleanup ck cn reg hsem url ssl connectRes onConnectRes
        frames recvExc e h1
    · cases hb : (clientBody ck cn reg hsem url ssl connectRes onConnectRes
          frames recvExc).2.2 with
      | ok u => rw [hb] at h2; simp at h2
      | error ex =>
          cases ex with
          | cancelled =>
              rw [hb] at h2
              rcases List.mem_singleton.mp h2 with rfl
              rfl
          | err s => rw [hb] at h2; simp at h2
  · exact clientBody_wsSet ck cn reg hsem url ssl connectRes onConnectRes frames recvExc

/-- C3 witness: a run whose connect fails with an ordinary error — no
connection was stored, and the cleanup suffix still closes the session
and invokes `on_disconnect(None)`. -/
theorem clientStart_cleanup_witness :
    ∃ p, (clientStart "type" "C" [] (fun _ _ => Except.ok Val.vnone) "ws://srv" true
            (Except.error (PyExc.err "refused")) (Except.ok ()) [] none).1
        = p ++ ((if (clientStart "type" "C" [] (fun _ _ => Except.ok Val.vnone) "ws://srv" true
                      (Except.error (PyExc.err "refused")) (Except.ok ()) [] none).2.1
                  then [Ev.closeWs] else [])
                 ++ [Ev.closeSession, Ev.onDisconnect Val.vnone]) ∧
      (∀ e ∈ p, e.isCleanup = false) ∧
      (clientStart "type" "C" [] (fun _ _ => Except.ok Val.vnone) "ws://srv" true
            (Except.error (PyExc.err "refused")) (Except.ok ()) [] none).2.1
        = exceptOk (Except.error (PyExc.err "refused")) :=
  clientStart_cleanup "type" "C" [] (fun _ _ => Except.ok Val.vnone) "ws://srv" true
    (Except.error (PyExc.err "refused")) (Except.ok ()) [] none

/-- C7: if the `try` body of `start()` ends with a `CancelledError` —
whether raised during connect, `on_connect`, dispatch, or while awaiting
a frame — `start` logs the warning, swallows the cancellation (returns
normally rather than crashing), and the cleanup suffix still runs. -/
theorem clientStart_cancelled (ck cn : String) (reg : Registry) (hsem : HandlerSem)
    (url : String) (ssl : Bool) (connectRes onConnectRes : Except PyExc Unit)
    (frames : List Msg) (recvExc : Option PyExc)
    (h : (clientBody ck cn reg hsem url ssl connectRes onConnectRes frames recvExc).2.2
          = Except.error PyExc.cancelled) :
    (clientStart ck cn reg hsem url ssl connectRes onConnectRes frames recvExc).1
      = (clientBody ck cn reg hsem url ssl connectRes onConnectRes frames recvExc).1
          ++ [Ev.logWarn "Keyboard Interrupt, exiting..."]
          ++ ((if (clientBody ck cn reg hsem url ssl connectRes onConnectRes
                   frames recvExc).2.1
                then [Ev.closeWs] else [])
               ++ [Ev.closeSession, Ev.onDisconnect Val.vnone]) ∧
    (clientStart ck cn reg hsem url ssl connectRes onConnectRes frames recvExc).2.2
      = Except.ok () := by
  constructor
  · simp [clientStart, h]
  · simp [clientStart, h]

/-- C7 witness: cancellation during connect — the warning is logged, the
session is closed, `on_disconnect(None)` runs, and `start` returns
normally. -/
theorem clientStart_cancelled_witness :
    (clientStart "type" "C" [] (fun _ _ => Except.ok Val.vnone) "ws://srv" true
        (Except.error PyExc.cancelled) (Except.ok ()) [] none).1
      = (clientBody "type" "C" [] (fun _ _ => Except.ok Val.vnone) "ws://srv" true
           (Except.error PyExc.cancelled) (Except.ok ()) [] none).1
          ++ [Ev.logWarn "Keyboard Interrupt, exiting..."]
          ++ ((if (clientBody "type" "C" [] (fun _ _ => Except.ok Val.vnone) "ws://srv" true
                   (Except.error PyExc.cancelled) (Except.ok ()) [] none).2.1
                then [Ev.closeWs] else [])
               ++ [Ev.closeSession, Ev.onDisconnect Val.vnone]) ∧
    (clientStart "type" "C" [] (fun _ _ => Except.ok Val.vnone) "ws://srv" true
        (Except.error PyExc.cancelled) (Except.ok ()) [] none).2.2
      = Except.ok () :=
  clientStart_cancelled "type" "C" [] (fun _ _ => Except.ok Val.vnone) "ws://srv" true
    (Except.error PyExc.cancelled) (Except.ok ()) [] none rfl

/-- C5 counterexample: `start()` itself opens no transport session — its
trace contains no session-open event at all (its first action is the
connect log); the session is opened by the constructor. -/
theorem clientStart_no_session_open :
    Ev.sessionOpen ∉ (clientStart "type" "C" [] (fun _ _ => Except.ok Val.vnone) "ws://srv"
        true (Except.ok ()) (Except.ok ()) [] none).1 ∧
    (clientStart "type" "C" [] (fun _ _ => Except.ok Val.vnone) "ws://srv" true
        (Except.ok ()) (Except.ok ()) [] none).1.head?
      = some (Ev.logInfo "Connecting to ws://srv...") ∧
    clientInitEvents = [Ev.sessionOpen] := by
  refine ⟨?_, rfl, rfl⟩
  decide

/-- C5 (amended): the transport session is opened at client
construction; a subsequent `start()` then connects to the configured URL
with the configured TLS toggle, and on success stores the connection,
invokes `on_connect`, and enters the receive loop — in that order. -/
theorem clientRun_connect_sequence (ck cn : String) (reg : Registry) (hsem : HandlerSem)
    (url : String) (ssl : Bool) (frames : List Msg) (recvExc : Option PyExc) :
    ∃ rest, (clientRun ck cn reg hsem url ssl (Except.ok ()) (Except.ok ())
          frames recvExc).1
        = Ev.sessionOpen :: Ev.logInfo ("Connecting to " ++ url ++ "...")
            :: Ev.connect url ssl :: Ev.onConnectWs
            :: ((clientLoop ck cn reg hsem frames recvExc).1 ++ rest) ∧
      (clientRun ck cn reg hsem url ssl (Except.ok ()) (Except.ok ())
          frames recvExc).2.1 = true := by
  refine ⟨(match (clientLoop ck cn reg hsem frames recvExc).2 with
           | Except.error PyExc.cancelled => [Ev.logWarn "Keyboard Interrupt, exiting..."]
           | _ => []) ++ ([Ev.closeWs] ++ [Ev.closeSession, Ev.onDisconnect Val.vnone]), ?_, rfl⟩
  simp [clientRun, clientInitEvents, clientStart, clientBody]

end WsHandler
